import Mathlib

/-!
Verification of the transcript-scraper backend (src/backend/main.py).

The Python code is shallowly embedded in Lean:
* float seconds are modelled as exact rationals (`ℚ`), with Python
  truncating `int()`, `//` and `%` modelled by the floor operations they
  perform on non-negative values;
* the 02d-style zero-padded decimal formatting of Python f-strings is
  modelled by an explicit decimal digit list with zero padding;
* the FastAPI endpoints become pure functions over an environment of
  collaborator oracles (yt-dlp, the Whisper API, the LLM API), returning
  `Except` of an HTTP error or the response model, together with a trace
  of the side effects (temp-directory lifecycle, which collaborators were
  invoked).
-/

/-! ### Decimal digits and zero padding -/

/-- The decimal digit character for a value below ten. -/
def digitChar (n : Nat) : Char :=
  if n = 0 then '0' else if n = 1 then '1' else if n = 2 then '2'
  else if n = 3 then '3' else if n = 4 then '4' else if n = 5 then '5'
  else if n = 6 then '6' else if n = 7 then '7' else if n = 8 then '8'
  else '9'

/-- Fuel-driven decimal digit expansion, most significant digit first. -/
def natDigitsAux : Nat → Nat → List Char
  | 0, _ => []
  | fuel + 1, n =>
    if n < 10 then [digitChar n]
    else natDigitsAux fuel (n / 10) ++ [digitChar (n % 10)]

/-- Decimal digit characters of a natural number, most significant first. -/
def natDigits (n : Nat) : List Char := natDigitsAux (n + 1) n

/-- Decimal rendering of a natural number, modelling the Python decimal
formatting of a non-negative integer. -/
def natStr (n : Nat) : String := ⟨natDigits n⟩

/-- Zero padding to a minimum width, modelling the 0wd f-string format. -/
def padDigits (w : Nat) (n : Nat) : List Char :=
  List.replicate (w - (natDigits n).length) '0' ++ natDigits n

/-- Zero-padded decimal string. -/
def padNum (w : Nat) (n : Nat) : String := ⟨padDigits w n⟩

/-- Numeric value of a list of decimal digit characters. -/
def digitsVal (cs : List Char) : Nat :=
  cs.foldl (fun a c => 10 * a + (c.toNat - 48)) 0

theorem natDigitsAux_irrel :
    ∀ f g n, n < f → n < g → natDigitsAux f n = natDigitsAux g n := by
  intro f
  induction f with
  | zero => intro g n h; omega
  | succ f ih =>
    intro g n hf hg
    match g, hg with
    | g + 1, hg =>
      simp only [natDigitsAux]
      split
      · rfl
      · have h10 : 10 ≤ n := by omega
        have hlt : n / 10 < n := Nat.div_lt_self (by omega) (by omega)
        rw [ih g (n / 10) (by omega) (by omega)]

theorem natDigits_eq (n : Nat) :
    natDigits n = if n < 10 then [digitChar n]
      else natDigits (n / 10) ++ [digitChar (n % 10)] := by
  unfold natDigits
  conv_lhs => rw [natDigitsAux]
  split
  · rfl
  · have h10 : 10 ≤ n := by omega
    have hlt : n / 10 < n := Nat.div_lt_self (by omega) (by omega)
    rw [natDigitsAux_irrel n (n / 10 + 1) (n / 10) (by omega) (by omega)]

theorem digitChar_isDigit (n : Nat) : (digitChar n).isDigit = true := by
  unfold digitChar
  repeat' split
  all_goals decide

theorem digitChar_toNat (n : Nat) (h : n < 10) : (digitChar n).toNat = 48 + n := by
  interval_cases n <;> decide

theorem natDigits_all_isDigit (n : Nat) : ∀ c ∈ natDigits n, c.isDigit = true := by
  induction n using Nat.strong_induction_on with
  | _ n ih =>
    rw [natDigits_eq]
    split
    · intro c hc
      simp only [List.mem_singleton] at hc
      subst hc
      exact digitChar_isDigit n
    · intro c hc
      rcases List.mem_append.1 hc with h | h
      · have h10 : 10 ≤ n := by omega
        exact ih (n / 10) (Nat.div_lt_self (by omega) (by omega)) c h
      · simp only [List.mem_singleton] at h
        subst h
        exact digitChar_isDigit _

theorem natDigits_ne_nil (n : Nat) : natDigits n ≠ [] := by
  rw [natDigits_eq]
  split
  · simp
  · simp

theorem digitsVal_append (xs ys : List Char) :
    digitsVal (xs ++ ys) = ys.foldl (fun a c => 10 * a + (c.toNat - 48)) (digitsVal xs) := by
  simp [digitsVal, List.foldl_append]

theorem digitsVal_natDigits (n : Nat) : digitsVal (natDigits n) = n := by
  induction n using Nat.strong_induction_on with
  | _ n ih =>
    rw [natDigits_eq]
    split
    · simp [digitsVal, digitChar_toNat n (by omega)]
    · have h10 : 10 ≤ n := by omega
      rw [digitsVal_append, List.foldl_cons, List.foldl_nil,
        ih (n / 10) (Nat.div_lt_self (by omega) (by omega)),
        digitChar_toNat (n % 10) (Nat.mod_lt n (by omega))]
      omega

theorem digitsVal_replicate_zero (k : Nat) (ys : List Char) :
    digitsVal (List.replicate k '0' ++ ys) = digitsVal ys := by
  induction k with
  | zero => simp
  | succ k ih =>
    rw [List.replicate_succ, List.cons_append]
    simpa [digitsVal] using ih

theorem digitsVal_padDigits (w n : Nat) : digitsVal (padDigits w n) = n := by
  rw [padDigits, digitsVal_replicate_zero, digitsVal_natDigits]

theorem padDigits_all_isDigit (w n : Nat) : ∀ c ∈ padDigits w n, c.isDigit = true := by
  intro c hc
  rcases List.mem_append.1 hc with h | h
  · have := List.eq_of_mem_replicate h
    subst this
    decide
  · exact natDigits_all_isDigit n c h

theorem natDigits_length_le : ∀ k n, n < 10 ^ (k + 1) → (natDigits n).length ≤ k + 1 := by
  intro k
  induction k with
  | zero =>
    intro n hn
    rw [natDigits_eq]
    have : n < 10 := by simpa using hn
    simp [this]
  | succ k ih =>
    intro n hn
    rw [natDigits_eq]
    split
    · simp
    · have hdiv : n / 10 < 10 ^ (k + 1) := by
        rw [Nat.div_lt_iff_lt_mul (by norm_num)]
        calc n < 10 ^ (k + 1 + 1) := hn
        _ = 10 ^ (k + 1) * 10 := pow_succ 10 (k + 1)
      simpa using ih (n / 10) hdiv

theorem padDigits_length (w n : Nat) :
    (padDigits w n).length = max w (natDigits n).length := by
  simp only [padDigits, List.length_append, List.length_replicate]
  omega

theorem padDigits_length_of_le (w n : Nat) (h : (natDigits n).length ≤ w) :
    (padDigits w n).length = w := by
  rw [padDigits_length]
  omega

/-! ### Python numeric primitives over exact rationals -/

/-- Python float floor division `a // b` (exact-value model). -/
def pyFloorDiv (a b : ℚ) : ℚ := (⌊a / b⌋ : ℚ)

/-- Python float modulo `a % b` for a positive divisor (exact-value model):
the remainder `a - b * (a // b)`. -/
def pyMod (a b : ℚ) : ℚ := a - b * (⌊a / b⌋ : ℚ)

/-- Python `int()` truncation toward zero (exact-value model). -/
def pyInt (q : ℚ) : ℤ := if q < 0 then -⌊-q⌋ else ⌊q⌋

theorem pyInt_of_nonneg (q : ℚ) (h : 0 ≤ q) : pyInt q = ⌊q⌋ := by
  simp [pyInt, not_lt.2 h]

/-- Whitespace characters stripped by Python `str.strip()` (ASCII range). -/
def isSpaceChar (c : Char) : Bool :=
  c = ' ' || c = '\t' || c = '\n' || c = '\r' || c = '\x0b' || c = '\x0c'

/-- Python `str.strip()`: drop leading and trailing whitespace. -/
def stripChars (cs : List Char) : List Char :=
  ((cs.dropWhile isSpaceChar).reverse.dropWhile isSpaceChar).reverse

/-- Python `str.strip()` on strings. -/
def pyStrip (s : String) : String := ⟨stripChars s.data⟩

theorem mem_stripChars_subset (cs : List Char) (c : Char) (h : c ∈ stripChars cs) :
    c ∈ cs := by
  unfold stripChars at h
  rw [List.mem_reverse] at h
  have h1 := (List.dropWhile_sublist (l := (cs.dropWhile isSpaceChar).reverse)
    (p := isSpaceChar)).subset h
  rw [List.mem_reverse] at h1
  exact (List.dropWhile_sublist (l := cs) (p := isSpaceChar)).subset h1

/-! ### Timestamp formatting (`format_timestamp`, `format_vtt_timestamp`) -/

/-- `hours = int(seconds // 3600)` as a natural number. -/
def clockH (seconds : ℚ) : Nat := (pyInt (pyFloorDiv seconds 3600)).toNat

/-- `minutes = int((seconds % 3600) // 60)` as a natural number. -/
def clockM (seconds : ℚ) : Nat := (pyInt (pyFloorDiv (pyMod seconds 3600) 60)).toNat

/-- `secs = int(seconds % 60)` as a natural number. -/
def clockS (seconds : ℚ) : Nat := (pyInt (pyMod seconds 60)).toNat

/-- `millis = int((seconds % 1) * 1000)` as a natural number. -/
def clockMs (seconds : ℚ) : Nat := (pyInt (pyMod seconds 1 * 1000)).toNat

/-- The characters of the formatted clock string: zero-padded hours,
minutes and seconds separated by colons, then the separator and the
zero-padded milliseconds; shared by the SRT (comma) and VTT (dot)
formatters. -/
def clockChars (sep : Char) (seconds : ℚ) : List Char :=
  padDigits 2 (clockH seconds) ++ ':' ::
    (padDigits 2 (clockM seconds) ++ ':' ::
      (padDigits 2 (clockS seconds) ++ sep :: padDigits 3 (clockMs seconds)))

/-- `format_timestamp` from src/backend/main.py: seconds to `HH:MM:SS,mmm`. -/
def format_timestamp (seconds : ℚ) : String := ⟨clockChars ',' seconds⟩

/-- `format_vtt_timestamp` from src/backend/main.py: seconds to `HH:MM:SS.mmm`. -/
def format_vtt_timestamp (seconds : ℚ) : String := ⟨clockChars '.' seconds⟩

/-- A non-negative rational truncated to whole milliseconds. -/
def msTrunc (q : ℚ) : ℚ := (⌊1000 * q⌋ : ℚ) / 1000

theorem pyFloorDiv_cast (a b : ℚ) : pyFloorDiv a b = ((⌊a / b⌋ : ℤ) : ℚ) := rfl

theorem pyMod_nonneg (a b : ℚ) (hb : 0 < b) : 0 ≤ pyMod a b := by
  rw [pyMod, sub_nonneg]
  calc b * (⌊a / b⌋ : ℚ) ≤ b * (a / b) :=
        mul_le_mul_of_nonneg_left (Int.floor_le (a / b)) hb.le
  _ = a := by field_simp

theorem clockH_repr (q : ℚ) (hq : 0 ≤ q) : (clockH q : ℤ) = ⌊q / 3600⌋ := by
  have h0 : (0 : ℤ) ≤ ⌊q / 3600⌋ := Int.le_floor.2 (by positivity)
  rw [clockH, pyFloorDiv_cast, pyInt_of_nonneg _ (by exact_mod_cast h0),
    Int.floor_intCast, Int.toNat_of_nonneg h0]

theorem clockM_repr (q : ℚ) (hq : 0 ≤ q) :
    (clockM q : ℤ) = ⌊q / 60⌋ - 60 * ⌊q / 3600⌋ := by
  set H : ℤ := ⌊q / 3600⌋ with hH
  have hHle : (H : ℚ) ≤ q / 3600 := Int.floor_le _
  have hfloor : ⌊pyMod q 3600 / 60⌋ = ⌊q / 60⌋ - 60 * H := by
    have hr : pyMod q 3600 / 60 = q / 60 - ((60 * H : ℤ) : ℚ) := by
      rw [pyMod]
      push_cast
      ring
    rw [hr, Int.floor_sub_int]
  have h0 : (0 : ℤ) ≤ ⌊q / 60⌋ - 60 * H := by
    have : ((60 * H : ℤ) : ℚ) ≤ q / 60 := by push_cast; linarith
    have := Int.le_floor.2 this
    omega
  rw [clockM, pyFloorDiv_cast, hfloor, pyInt_of_nonneg _ (by exact_mod_cast h0),
    Int.floor_intCast, Int.toNat_of_nonneg h0]

theorem clockS_repr (q : ℚ) (hq : 0 ≤ q) :
    (clockS q : ℤ) = ⌊q⌋ - 60 * ⌊q / 60⌋ := by
  set K : ℤ := ⌊q / 60⌋ with hK
  have hKle : (K : ℚ) ≤ q / 60 := Int.floor_le _
  have hfloor : ⌊pyMod q 60⌋ = ⌊q⌋ - 60 * K := by
    have hr : pyMod q 60 = q - ((60 * K : ℤ) : ℚ) := by
      rw [pyMod]
      push_cast
      ring
    rw [hr, Int.floor_sub_int]
  have h0 : (0 : ℤ) ≤ ⌊q⌋ - 60 * K := by
    have : ((60 * K : ℤ) : ℚ) ≤ q := by push_cast; linarith
    have := Int.le_floor.2 this
    omega
  rw [clockS, pyInt_of_nonneg _ (pyMod_nonneg q 60 (by norm_num)), hfloor,
    Int.toNat_of_nonneg h0]

theorem clockMs_repr (q : ℚ) (hq : 0 ≤ q) :
    (clockMs q : ℤ) = ⌊1000 * q⌋ - 1000 * ⌊q⌋ := by
  have hNle : ((⌊q⌋ : ℤ) : ℚ) ≤ q := Int.floor_le _
  have hfloor : ⌊pyMod q 1 * 1000⌋ = ⌊1000 * q⌋ - 1000 * ⌊q⌋ := by
    have hr : pyMod q 1 * 1000 = 1000 * q - ((1000 * ⌊q⌋ : ℤ) : ℚ) := by
      rw [pyMod, div_one]
      push_cast
      ring
    rw [hr, Int.floor_sub_int]
  have h0 : (0 : ℤ) ≤ ⌊1000 * q⌋ - 1000 * ⌊q⌋ := by
    have : ((1000 * ⌊q⌋ : ℤ) : ℚ) ≤ 1000 * q := by push_cast; linarith
    have := Int.le_floor.2 this
    omega
  rw [clockMs, pyInt_of_nonneg _ (mul_nonneg (pyMod_nonneg q 1 (by norm_num)) (by norm_num)),
    hfloor, Int.toNat_of_nonneg h0]

theorem clockM_lt (q : ℚ) (hq : 0 ≤ q) : clockM q < 60 := by
  have hrepr := clockM_repr q hq
  have hup : ⌊q / 60⌋ < 60 * (⌊q / 3600⌋ + 1) := by
    apply Int.floor_lt.2
    have := Int.lt_floor_add_one (q / 3600)
    push_cast
    linarith
  omega

theorem clockS_lt (q : ℚ) (hq : 0 ≤ q) : clockS q < 60 := by
  have hrepr := clockS_repr q hq
  have hup : ⌊q⌋ < 60 * (⌊q / 60⌋ + 1) := by
    apply Int.floor_lt.2
    have := Int.lt_floor_add_one (q / 60)
    push_cast
    linarith
  omega

theorem clockMs_lt (q : ℚ) (hq : 0 ≤ q) : clockMs q < 1000 := by
  have hrepr := clockMs_repr q hq
  have hup : ⌊1000 * q⌋ < 1000 * (⌊q⌋ + 1) := by
    apply Int.floor_lt.2
    have := Int.lt_floor_add_one q
    push_cast
    linarith
  omega

theorem clock_sum (q : ℚ) (hq : 0 ≤ q) :
    (clockH q : ℚ) * 3600 + (clockM q : ℚ) * 60 + (clockS q : ℚ)
      + (clockMs q : ℚ) / 1000 = msTrunc q := by
  have h1 : ((clockH q : ℤ) : ℚ) = ((⌊q / 3600⌋ : ℤ) : ℚ) := by rw [clockH_repr q hq]
  have h2 : ((clockM q : ℤ) : ℚ) = ((⌊q / 60⌋ - 60 * ⌊q / 3600⌋ : ℤ) : ℚ) := by
    rw [clockM_repr q hq]
  have h3 : ((clockS q : ℤ) : ℚ) = ((⌊q⌋ - 60 * ⌊q / 60⌋ : ℤ) : ℚ) := by
    rw [clockS_repr q hq]
  have h4 : ((clockMs q : ℤ) : ℚ) = ((⌊1000 * q⌋ - 1000 * ⌊q⌋ : ℤ) : ℚ) := by
    rw [clockMs_repr q hq]
  push_cast at h1 h2 h3 h4
  rw [msTrunc, h1, h2, h3, h4]
  ring

/-! ### Regex-style matcher and parser for clock strings -/

/-- Split off the longest digit-character run at the head of a list. -/
def takeDigits : List Char → List Char × List Char
  | [] => ([], [])
  | c :: cs =>
    if c.isDigit then
      let p := takeDigits cs
      (c :: p.1, p.2)
    else ([], c :: cs)

/-- Decide whether a string matches the anchored pattern
two-or-more digits, then a colon, two digits, a colon, two digits, the
separator, and three digits: the regex `\d\d+:\d\d:\d\d<sep>\d\d\d`. -/
def matchClock (sep : Char) (s : String) : Bool :=
  let p1 := takeDigits s.data
  2 ≤ p1.1.length &&
    match p1.2 with
    | ':' :: r1 =>
      let p2 := takeDigits r1
      p2.1.length = 2 &&
        match p2.2 with
        | ':' :: r2 =>
          let p3 := takeDigits r2
          p3.1.length = 2 &&
            match p3.2 with
            | c :: r3 =>
              c = sep &&
                (let p4 := takeDigits r3
                 p4.1.length = 3 && p4.2.isEmpty)
            | [] => false
        | _ => false
    | _ => false

/-- Parse a clock prefix `H+:MM:SS<sep>mmm` from a character list, returning
the decoded value `hours*3600 + minutes*60 + seconds + millis/1000` and the
unconsumed remainder. -/
def parseClockChars (sep : Char) (cs : List Char) : Option (ℚ × List Char) :=
  let p1 := takeDigits cs
  if p1.1.length = 0 then none else
  match p1.2 with
  | ':' :: r1 =>
    let p2 := takeDigits r1
    if p2.1.length = 2 then
      match p2.2 with
      | ':' :: r2 =>
        let p3 := takeDigits r2
        if p3.1.length = 2 then
          match p3.2 with
          | c :: r3 =>
            if c = sep then
              let p4 := takeDigits r3
              if p4.1.length = 3 then
                some ((digitsVal p1.1 : ℚ) * 3600 + (digitsVal p2.1 : ℚ) * 60
                  + (digitsVal p3.1 : ℚ) + (digitsVal p4.1 : ℚ) / 1000, p4.2)
              else none
            else none
          | [] => none
        else none
      | _ => none
    else none
  | _ => none

/-- Parse a whole string as a clock value. -/
def parseClock (sep : Char) (s : String) : Option ℚ :=
  match parseClockChars sep s.data with
  | some (v, []) => some v
  | _ => none

theorem takeDigits_append (ds : List Char) (rest : List Char)
    (hds : ∀ c ∈ ds, c.isDigit = true)
    (hrest : ∀ c, rest.head? = some c → c.isDigit = false) :
    takeDigits (ds ++ rest) = (ds, rest) := by
  induction ds with
  | nil =>
    match rest with
    | [] => rfl
    | c :: rs =>
      have hc := hrest c rfl
      simp [takeDigits, hc]
  | cons c cs ih =>
    have hc : c.isDigit = true := hds c (by simp)
    have ih2 := ih (fun x hx => hds x (by simp [hx]))
    simp [takeDigits, hc, List.append_eq, ih2]

theorem clockChars_all_clock (sep : Char) (q : ℚ) :
    ∀ c ∈ clockChars sep q, c.isDigit = true ∨ c = ':' ∨ c = sep := by
  intro c hc
  simp only [clockChars, List.mem_append, List.mem_cons] at hc
  rcases hc with h | h | h | h | h | h | h
  · exact Or.inl (padDigits_all_isDigit _ _ c h)
  · exact Or.inr (Or.inl h)
  · exact Or.inl (padDigits_all_isDigit _ _ c h)
  · exact Or.inr (Or.inl h)
  · exact Or.inl (padDigits_all_isDigit _ _ c h)
  · exact Or.inr (Or.inr h)
  · exact Or.inl (padDigits_all_isDigit _ _ c h)

theorem padDigits_len2_of_lt (n : Nat) (h : n < 100) :
    (padDigits 2 n).length = 2 :=
  padDigits_length_of_le 2 n (natDigits_length_le 1 n (by omega))

theorem padDigits_len3_of_lt (n : Nat) (h : n < 1000) :
    (padDigits 3 n).length = 3 :=
  padDigits_length_of_le 3 n (natDigits_length_le 2 n (by omega))

theorem takeDigits_clockH (q : ℚ) (rest : List Char) :
    takeDigits (padDigits 2 (clockH q) ++ ':' :: rest)
      = (padDigits 2 (clockH q), ':' :: rest) := by
  apply takeDigits_append _ _ (padDigits_all_isDigit _ _)
  intro c h
  simp only [List.head?_cons, Option.some.injEq] at h
  subst h
  decide

theorem takeDigits_pad_sep (w n : Nat) (sep : Char) (hsep : sep.isDigit = false)
    (rest : List Char) :
    takeDigits (padDigits w n ++ sep :: rest) = (padDigits w n, sep :: rest) := by
  apply takeDigits_append _ _ (padDigits_all_isDigit _ _)
  intro c h
  simp only [List.head?_cons, Option.some.injEq] at h
  subst h
  exact hsep

theorem matchClock_format (sep : Char) (hsep : sep.isDigit = false) (q : ℚ)
    (hq : 0 ≤ q) : matchClock sep ⟨clockChars sep q⟩ = true := by
  have lenH : 2 ≤ (padDigits 2 (clockH q)).length := by rw [padDigits_length]; omega
  have lenM : (padDigits 2 (clockM q)).length = 2 :=
    padDigits_len2_of_lt _ (by have := clockM_lt q hq; omega)
  have lenS : (padDigits 2 (clockS q)).length = 2 :=
    padDigits_len2_of_lt _ (by have := clockS_lt q hq; omega)
  have lenMs : (padDigits 3 (clockMs q)).length = 3 :=
    padDigits_len3_of_lt _ (clockMs_lt q hq)
  have e4 : takeDigits (padDigits 3 (clockMs q)) = (padDigits 3 (clockMs q), []) := by
    have := takeDigits_append (padDigits 3 (clockMs q)) []
      (padDigits_all_isDigit _ _) (by intro c h; simp at h)
    simpa using this
  unfold matchClock
  simp [clockChars, takeDigits_clockH,
    takeDigits_pad_sep 2 (clockM q) ':' (by decide),
    takeDigits_pad_sep 2 (clockS q) sep hsep, e4, lenH, lenM, lenS, lenMs]

theorem parseClockChars_format (sep : Char) (hsep : sep.isDigit = false) (q : ℚ)
    (hq : 0 ≤ q) (rest : List Char)
    (hrest : ∀ c, rest.head? = some c → c.isDigit = false) :
    parseClockChars sep (clockChars sep q ++ rest) = some (msTrunc q, rest) := by
  have lenH : (padDigits 2 (clockH q)).length ≠ 0 := by rw [padDigits_length]; omega
  have lenM : (padDigits 2 (clockM q)).length = 2 :=
    padDigits_len2_of_lt _ (by have := clockM_lt q hq; omega)
  have lenS : (padDigits 2 (clockS q)).length = 2 :=
    padDigits_len2_of_lt _ (by have := clockS_lt q hq; omega)
  have lenMs : (padDigits 3 (clockMs q)).length = 3 :=
    padDigits_len3_of_lt _ (clockMs_lt q hq)
  have e4 : takeDigits (padDigits 3 (clockMs q) ++ rest)
      = (padDigits 3 (clockMs q), rest) :=
    takeDigits_append _ _ (padDigits_all_isDigit _ _) hrest
  have hassoc : clockChars sep q ++ rest
      = padDigits 2 (clockH q) ++ ':' ::
          (padDigits 2 (clockM q) ++ ':' ::
            (padDigits 2 (clockS q) ++ sep :: (padDigits 3 (clockMs q) ++ rest))) := by
    simp [clockChars, List.append_assoc]
  rw [hassoc]
  unfold parseClockChars
  simp [takeDigits_clockH, takeDigits_pad_sep 2 (clockM q) ':' (by decide),
    takeDigits_pad_sep 2 (clockS q) sep hsep, e4, lenH, lenM, lenS, lenMs,
    digitsVal_padDigits]
  exact clock_sum q hq

theorem parseClock_format (sep : Char) (hsep : sep.isDigit = false) (q : ℚ)
    (hq : 0 ≤ q) : parseClock sep ⟨clockChars sep q⟩ = some (msTrunc q) := by
  have h := parseClockChars_format sep hsep q hq [] (by intro c h; simp at h)
  rw [List.append_nil] at h
  simp [parseClock, h]

/-! ### Segments and the SRT / VTT encoders -/

/-- A transcript segment (the `Segment` pydantic model). -/
structure Segment where
  start : ℚ
  «end» : ℚ
  text : String
deriving DecidableEq

/-- The list of lines built by `segments_to_srt` before joining: for the
segment at 1-based index `i`, the index line, the `start --> end` line,
the stripped text line, and an empty line. -/
def srtLines : Nat → List Segment → List String
  | _, [] => []
  | i, seg :: rest =>
    natStr i
      :: (format_timestamp seg.start ++ " --> " ++ format_timestamp seg.«end»)
      :: pyStrip seg.text :: "" :: srtLines (i + 1) rest

/-- The per-segment lines built by `segments_to_vtt` (after the header). -/
def vttLines : Nat → List Segment → List String
  | _, [] => []
  | i, seg :: rest =>
    natStr i
      :: (format_vtt_timestamp seg.start ++ " --> " ++ format_vtt_timestamp seg.«end»)
      :: pyStrip seg.text :: "" :: vttLines (i + 1) rest

/-- Python `"\n".join(lines)`. -/
def joinNl : List String → String
  | [] => ""
  | [l] => l
  | l :: l2 :: ls => l ++ "\n" ++ joinNl (l2 :: ls)

/-- `segments_to_srt` from src/backend/main.py. -/
def segments_to_srt (segments : List Segment) : String :=
  joinNl (srtLines 1 segments)

/-- `segments_to_vtt` from src/backend/main.py: the `WEBVTT` header, an
empty line, then the same per-segment lines with dot-separator timestamps. -/
def segments_to_vtt (segments : List Segment) : String :=
  joinNl ("WEBVTT" :: "" :: vttLines 1 segments)

/-! ### Splitting a document back into lines, and the SRT parser -/

/-- Split a character list at newline characters. -/
def splitNlChars : List Char → List (List Char)
  | [] => [[]]
  | c :: cs =>
    let r := splitNlChars cs
    if c = '\n' then [] :: r
    else
      match r with
      | [] => [[c]]
      | l :: ls => (c :: l) :: ls

/-- Split a string into its newline-separated lines. -/
def splitNl (s : String) : List String :=
  (splitNlChars s.data).map (fun l => ⟨l⟩)

/-- Parse an SRT timing line `A --> B` where both sides are comma-separator
clock strings. -/
def parseTiming (s : String) : Option (ℚ × ℚ) :=
  match parseClockChars ',' s.data with
  | some (a, ' ' :: '-' :: '-' :: '>' :: ' ' :: rest) =>
    match parseClockChars ',' rest with
    | some (b, []) => some (a, b)
    | _ => none
  | _ => none

/-- Parse the line list of an SRT document, checking the 1-based index
lines, decoding each timing line, and taking each text line verbatim. -/
def parseSRTLines : Nat → List String → Option (List Segment)
  | _, [] => some []
  | _, [l] => if l = "" then some [] else none
  | i, idx :: timing :: text :: blank :: rest =>
    if idx = natStr i then
      if blank = "" then
        match parseTiming timing, parseSRTLines (i + 1) rest with
        | some ab, some segs => some (⟨ab.1, ab.2, text⟩ :: segs)
        | _, _ => none
      else none
    else none
  | _, _ => none

/-- Parse a whole SRT document produced by `segments_to_srt`. -/
def parseSRT (doc : String) : Option (List Segment) :=
  parseSRTLines 1 (splitNl doc)

theorem splitNlChars_ne_nil (cs : List Char) : splitNlChars cs ≠ [] := by
  induction cs with
  | nil => simp [splitNlChars]
  | cons c cs ih =>
    simp only [splitNlChars]
    split
    · simp
    · match h : splitNlChars cs with
      | [] => simp
      | l :: ls => simp

theorem splitNlChars_no_nl (cs : List Char) (h : '\n' ∉ cs) :
    splitNlChars cs = [cs] := by
  induction cs with
  | nil => rfl
  | cons c cs ih =>
    have hc : ¬(c = '\n') := by
      intro hc
      exact h (by simp [hc])
    have hcs : '\n' ∉ cs := fun hm => h (by simp [hm])
    simp only [splitNlChars, ih hcs, if_neg hc]

theorem splitNlChars_append (l rest : List Char) (hl : '\n' ∉ l) :
    splitNlChars (l ++ '\n' :: rest) = l :: splitNlChars rest := by
  induction l with
  | nil => simp [splitNlChars]
  | cons c cs ih =>
    have hc : ¬(c = '\n') := by
      intro hc
      exact hl (by simp [hc])
    have hcs : '\n' ∉ cs := fun hm => hl (by simp [hm])
    simp only [List.cons_append, splitNlChars, List.append_eq, if_neg hc, ih hcs]

theorem joinNl_data_cons (l l2 : String) (ls : List String) :
    (joinNl (l :: l2 :: ls)).data = l.data ++ '\n' :: (joinNl (l2 :: ls)).data := by
  show (l ++ "\n" ++ joinNl (l2 :: ls)).data = _
  rw [String.data_append, String.data_append, List.append_assoc]
  rfl

theorem splitNl_joinNl (L : List String) (hne : L ≠ [])
    (hnl : ∀ l ∈ L, '\n' ∉ l.data) : splitNl (joinNl L) = L := by
  induction L with
  | nil => exact absurd rfl hne
  | cons l ls ih =>
    match ls with
    | [] =>
      have h1 : '\n' ∉ l.data := hnl l (by simp)
      simp [splitNl, joinNl, splitNlChars_no_nl l.data h1]
    | l2 :: ls2 =>
      have h1 : '\n' ∉ l.data := hnl l (by simp)
      have ih2 := ih (by simp) (fun x hx => hnl x (by simp [hx]))
      simp only [splitNl, joinNl_data_cons, splitNlChars_append _ _ h1]
      rw [List.map_cons]
      simp only [splitNl] at ih2
      rw [ih2]

theorem timing_data (a b : ℚ) :
    (format_timestamp a ++ " --> " ++ format_timestamp b).data
      = clockChars ',' a ++ ' ' :: '-' :: '-' :: '>' :: ' ' :: clockChars ',' b := by
  rw [format_timestamp, format_timestamp, String.data_append, String.data_append,
    List.append_assoc]
  rfl

theorem parseTiming_format (a b : ℚ) (ha : 0 ≤ a) (hb : 0 ≤ b) :
    parseTiming (format_timestamp a ++ " --> " ++ format_timestamp b)
      = some (msTrunc a, msTrunc b) := by
  have h1 := parseClockChars_format ',' (by decide) a ha
    (' ' :: '-' :: '-' :: '>' :: ' ' :: clockChars ',' b)
    (by
      intro c h
      simp only [List.head?_cons, Option.some.injEq] at h
      subst h
      decide)
  have h2 := parseClockChars_format ',' (by decide) b hb []
    (by intro c h; simp at h)
  rw [List.append_nil] at h2
  rw [parseTiming, timing_data, h1]
  simp [h2]

theorem nl_notin_clockChars (sep : Char) (q : ℚ) (hsep : sep ≠ '\n') :
    '\n' ∉ clockChars sep q := by
  intro h
  rcases clockChars_all_clock sep q '\n' h with h | h | h
  · exact absurd h (by decide)
  · exact absurd h (by decide)
  · exact hsep h.symm

theorem nl_notin_natStr (i : Nat) : '\n' ∉ (natStr i).data := by
  intro h
  have := natDigits_all_isDigit i '\n' h
  exact absurd this (by decide)

theorem srtLines_no_nl (segs : List Segment) :
    ∀ i, (∀ s ∈ segs, '\n' ∉ s.text.data) →
      ∀ l ∈ srtLines i segs, '\n' ∉ l.data := by
  induction segs with
  | nil => intro i _ l hl; simp [srtLines] at hl
  | cons s rest ih =>
    intro i h l hl
    have hs := h s (by simp)
    simp only [srtLines, List.mem_cons] at hl
    rcases hl with hl | hl | hl | hl | hl
    · subst hl; exact nl_notin_natStr i
    · subst hl
      rw [timing_data]
      intro hmem
      rcases List.mem_append.1 hmem with hmem | hmem
      · exact nl_notin_clockChars ',' s.start (by decide) hmem
      · simp only [List.mem_cons] at hmem
        rcases hmem with h1 | h1 | h1 | h1 | h1 | h1
        · exact absurd h1 (by decide)
        · exact absurd h1 (by decide)
        · exact absurd h1 (by decide)
        · exact absurd h1 (by decide)
        · exact absurd h1 (by decide)
        · exact nl_notin_clockChars ',' s.«end» (by decide) h1
    · subst hl
      intro hmem
      exact hs (mem_stripChars_subset _ _ hmem)
    · subst hl; simp
    · exact ih (i + 1) (fun x hx => h x (by simp [hx])) l hl

theorem parseSRTLines_srtLines (segs : List Segment) :
    ∀ i, (∀ s ∈ segs, 0 ≤ s.start ∧ 0 ≤ s.«end») →
      parseSRTLines i (srtLines i segs)
        = some (segs.map (fun s => ⟨msTrunc s.start, msTrunc s.«end», pyStrip s.text⟩)) := by
  induction segs with
  | nil => intro i _; rfl
  | cons s rest ih =>
    intro i h
    have hs := h s (by simp)
    have e := parseTiming_format s.start s.«end» hs.1 hs.2
    have ih2 := ih (i + 1) (fun x hx => h x (by simp [hx]))
    simp only [srtLines, parseSRTLines, if_pos rfl, e, ih2, List.map_cons]
    simp

theorem srtLines_ne_nil (s : Segment) (rest : List Segment) (i : Nat) :
    srtLines i (s :: rest) ≠ [] := by
  simp [srtLines]

/-! ### Comma-to-dot relation between the SRT and VTT encoders -/

/-- Replace every comma by a dot in a string. -/
def commaToDot (s : String) : String :=
  ⟨s.data.map (fun c => if c = ',' then '.' else c)⟩

/-- Apply `commaToDot` to the timing line of each four-line block, leaving
index lines, text lines and blank lines untouched. -/
def withDotTimings : List String → List String
  | idx :: timing :: text :: blank :: rest =>
    idx :: commaToDot timing :: text :: blank :: withDotTimings rest
  | other => other

theorem map_comma_padDigits (w n : Nat) :
    (padDigits w n).map (fun c => if c = ',' then '.' else c) = padDigits w n := by
  have h : ∀ c ∈ padDigits w n, (if c = ',' then '.' else c) = c := by
    intro c hc
    have hd := padDigits_all_isDigit w n c hc
    have hne : ¬(c = ',') := by
      intro he
      subst he
      exact absurd hd (by decide)
    simp [hne]
  calc (padDigits w n).map (fun c => if c = ',' then '.' else c)
      = (padDigits w n).map id := List.map_congr_left h
  _ = padDigits w n := List.map_id _

theorem clockChars_comma_dot (q : ℚ) :
    (clockChars ',' q).map (fun c => if c = ',' then '.' else c) = clockChars '.' q := by
  simp [clockChars, List.map_append, map_comma_padDigits]

theorem vtt_timing_data (a b : ℚ) :
    (format_vtt_timestamp a ++ " --> " ++ format_vtt_timestamp b).data
      = clockChars '.' a ++ ' ' :: '-' :: '-' :: '>' :: ' ' :: clockChars '.' b := by
  rw [format_vtt_timestamp, format_vtt_timestamp, String.data_append,
    String.data_append, List.append_assoc]
  rfl

theorem commaToDot_timing (a b : ℚ) :
    commaToDot (format_timestamp a ++ " --> " ++ format_timestamp b)
      = format_vtt_timestamp a ++ " --> " ++ format_vtt_timestamp b := by
  apply String.ext
  show (format_timestamp a ++ " --> " ++ format_timestamp b).data.map _ = _
  rw [timing_data, vtt_timing_data, List.map_append, clockChars_comma_dot]
  simp [clockChars_comma_dot]

theorem withDotTimings_srtLines (segs : List Segment) :
    ∀ i, withDotTimings (srtLines i segs) = vttLines i segs := by
  induction segs with
  | nil => intro i; rfl
  | cons s rest ih =>
    intro i
    simp only [srtLines, vttLines, withDotTimings, commaToDot_timing, ih (i + 1)]

/-! ### Browser-side export guards (the JavaScript in the served page) -/

/-- Modelled from the browser `downloadSRT` JavaScript in the HTML template
of src/backend/main.py: the per-segment block concatenation
`i+1, formatSRTTime(start) --> formatSRTTime(end), text.trim(), blank`. -/
def srtConcat : Nat → List Segment → String
  | _, [] => ""
  | i, seg :: rest =>
    natStr i ++ "\n" ++ format_timestamp seg.start ++ " --> "
      ++ format_timestamp seg.«end» ++ "\n" ++ pyStrip seg.text ++ "\n\n"
      ++ srtConcat (i + 1) rest

/-- The browser `downloadSRT` export: refuses with a toast (modelled as
`none`) when there are no segments, otherwise produces the SRT text. -/
def downloadSRT (segments : List Segment) : Option String :=
  if segments.length = 0 then none else some (srtConcat 1 segments)

/-- Modelled from the browser `downloadVTT` JavaScript: per-segment blocks
with dot-separator timestamps. -/
def vttConcat : Nat → List Segment → String
  | _, [] => ""
  | i, seg :: rest =>
    natStr i ++ "\n" ++ format_vtt_timestamp seg.start ++ " --> "
      ++ format_vtt_timestamp seg.«end» ++ "\n" ++ pyStrip seg.text ++ "\n\n"
      ++ vttConcat (i + 1) rest

/-- The browser `downloadVTT` export: `none` when there are no segments. -/
def downloadVTT (segments : List Segment) : Option String :=
  if segments.length = 0 then none else some ("WEBVTT\n\n" ++ vttConcat 1 segments)

/-! ### Request and response models of the HTTP surface -/

/-- The `TranscribeRequest` pydantic model. -/
structure TranscribeRequest where
  url : String
  summary_style : String := "brief"
deriving DecidableEq

/-- The `TranscribeResponse` pydantic model. -/
structure TranscribeResponse where
  success : Bool
  transcript : Option String := none
  segments : Option (List Segment) := none
  summary : Option String := none
  error : Option String := none
  duration : Option ℚ := none
  language : Option String := none
  title : Option String := none
  thumbnail : Option String := none
deriving DecidableEq

/-- The `ScriptRequest` pydantic model. -/
structure ScriptRequest where
  transcript : String
  prompt : String
  template : String := "custom"
deriving DecidableEq

/-- The `ScriptResponse` pydantic model. -/
structure ScriptResponse where
  success : Bool
  script : Option String := none
  error : Option String := none
deriving DecidableEq

/-- A FastAPI `HTTPException` with status code and detail text. -/
structure HTTPError where
  status : Nat
  detail : String
deriving DecidableEq

/-- Video metadata as reshaped by `get_video_metadata` on success. -/
structure Metadata where
  title : String
  thumbnail : String
  duration : ℚ
  channel : String
deriving DecidableEq

/-- The fields of a successful Whisper transcription response. -/
structure TranscriptionData where
  text : String
  language : Option String
  duration : ℚ
  segments : List Segment
deriving DecidableEq

/-- Outcome of the `ydl.download` call inside `transcribe_video`. -/
inductive DownloadOutcome
  | ok : DownloadOutcome
  | downloadError : String → DownloadOutcome
  | unexpectedError : String → DownloadOutcome
deriving DecidableEq

/-- Collaborator oracle for one transcribe request: what yt-dlp, the
filesystem listing, the Whisper API and the summarizer LLM would return,
as functions of the arguments the code passes them. -/
structure TranscribeEnv where
  metadata : String → Option Metadata
  download : String → DownloadOutcome
  files : List String
  transcription : String → Except String TranscriptionData
  summarizer : String → String → Option String

/-- Side-effect trace of one transcribe request. -/
structure Trace where
  dirCreated : Bool
  dirExists : Bool
  removeCount : Nat
  downloadInvoked : Bool
  transcriberInvoked : Bool
  summarizerInvoked : Bool
  audioFile : Option String
deriving DecidableEq

/-- The audio extensions accepted when scanning the download directory. -/
def audioExts : List String := [".mp3", ".m4a", ".wav", ".webm", ".opus", ".ogg"]

/-- `file.endswith((".mp3", ".m4a", ".wav", ".webm", ".opus", ".ogg"))`. -/
def hasAudioExt (file : String) : Bool :=
  audioExts.any (fun e => e.data.isSuffixOf file.data)

/-- The per-style system prompts of `generate_summary`, looked up with
`style_prompts.get(style, style_prompts["brief"])`. -/
def style_prompts (style : String) : String :=
  if style = "brief" then
    "Provide a concise summary in 2-3 sentences capturing the main points."
  else if style = "bullets" then
    "Provide a summary as 4-6 bullet points. Start each point with •"
  else if style = "takeaways" then
    "Extract the 3-5 key takeaways from this content. Start each with a number (1., 2., etc.)"
  else if style = "actions" then
    "Extract any action items, recommendations, or things the viewer should do. If none exist, summarize the main advice given. Use bullet points starting with •"
  else
    "Provide a concise summary in 2-3 sentences capturing the main points."

/-- `generate_summary` from src/backend/main.py: build the system and user
messages, call the LLM (the oracle), and return the stripped content; any
collaborator exception is caught and the empty string returned. -/
def generate_summary (llm : String → String → Option String)
    (transcript : String) (style : String) : String :=
  let sys := "You are a helpful assistant that summarizes video transcripts. "
    ++ style_prompts style
  let user := "Summarize this transcript:\n\n" ++ transcript.take 4000
  match llm sys user with
  | some content => pyStrip content
  | none => ""

/-- Python `round(x)` (round half to even) on an exact value. -/
def pyRoundHalfEven (x : ℚ) : ℤ :=
  let n := ⌊x⌋
  if x - (n : ℚ) < 1 / 2 then n
  else if x - (n : ℚ) > 1 / 2 then n + 1
  else if n % 2 = 0 then n else n + 1

/-- Python `round(x, 2)` on an exact value. -/
def pyRound2 (x : ℚ) : ℚ := (pyRoundHalfEven (x * 100) : ℚ) / 100

/-- The initial trace state right after `tempfile.mkdtemp()` succeeds. -/
def initialTrace : Trace :=
  { dirCreated := true, dirExists := true, removeCount := 0,
    downloadInvoked := false, transcriberInvoked := false,
    summarizerInvoked := false, audioFile := none }

/-- The `try:` body of `transcribe_video`: metadata fetch (never raises),
temp-dir creation, download, audio-file scan, transcription, optional
summary, and response assembly.  Handled and generic exceptions are the
`Except.error` results, exactly as the `except` clauses map them. -/
def transcribeBody (env : TranscribeEnv) (req : TranscribeRequest) :
    Except HTTPError TranscribeResponse × Trace :=
  let metadata := env.metadata req.url
  let t1 := { initialTrace with downloadInvoked := true }
  match env.download req.url with
  | .downloadError msg =>
    (.error ⟨400, "Failed to download video: " ++ msg⟩, t1)
  | .unexpectedError msg =>
    (.error ⟨500, "Transcription failed: " ++ msg⟩, t1)
  | .ok =>
    match env.files.find? hasAudioExt with
    | none => (.error ⟨500, "Audio file not found after download"⟩, t1)
    | some f =>
      let t2 := { t1 with audioFile := some f, transcriberInvoked := true }
      match env.transcription f with
      | .error msg => (.error ⟨500, "Transcription failed: " ++ msg⟩, t2)
      | .ok d =>
        let transcript := pyStrip d.text
        let language := d.language.getD "unknown"
        let segments := d.segments
        let sres :=
          if transcript = "" then ("", t2)
          else (generate_summary env.summarizer transcript req.summary_style,
            { t2 with summarizerInvoked := true })
        (.ok {
          success := true
          transcript := some transcript
          segments := some segments
          summary := some sres.1
          error := none
          duration := if d.duration = 0 then none else some (pyRound2 d.duration)
          language := some language
          title := metadata.map (fun m => m.title)
          thumbnail := metadata.map (fun m => m.thumbnail) }, sres.2)

/-- The `finally:` clause: remove the temp directory if it exists. -/
def finallyCleanup (t : Trace) : Trace :=
  if t.dirExists then
    { t with dirExists := false, removeCount := t.removeCount + 1 }
  else t

/-- `transcribe_video` from src/backend/main.py: the `try` body followed
unconditionally by the `finally` cleanup, on every exit path. -/
def transcribe_video (env : TranscribeEnv) (req : TranscribeRequest) :
    Except HTTPError TranscribeResponse × Trace :=
  let r := transcribeBody env req
  (r.1, finallyCleanup r.2)

/-! ### Script generation flow (`generate_script`, `/generate-script`) -/

/-- The per-template system prompts of `generate_script`, looked up with
`template_prompts.get(template, template_prompts["custom"])`. -/
def template_prompts (template : String) : String :=
  if template = "twitter" then
    "Create an engaging Twitter/X thread (5-10 tweets) from this content. Start with a hook, include key insights, and end with a call-to-action. Use emojis sparingly. Format each tweet on a new line starting with the tweet number (1/, 2/, etc.)."
  else if template = "blog" then
    "Write a well-structured blog post from this content. Include an engaging title, introduction, main sections with headers (use ##), key points, and a conclusion. Make it informative and engaging."
  else if template = "youtube" then
    "Write a YouTube video script based on this content. Include: [HOOK] - attention-grabbing opener, [INTRO] - brief intro, [MAIN CONTENT] - key sections with talking points, [CTA] - call to action, [OUTRO] - closing. Format with clear section headers."
  else if template = "linkedin" then
    "Create a professional LinkedIn post from this content. Start with a hook, share valuable insights, use line breaks for readability, and end with a question or call-to-action to drive engagement. Keep it professional but personable."
  else if template = "newsletter" then
    "Write an email newsletter from this content. Include a catchy subject line, greeting, main content with key takeaways, and a sign-off. Make it conversational and valuable to readers."
  else if template = "custom" then
    "Follow the user\x27s instructions to create content based on the transcript."
  else
    "Follow the user\x27s instructions to create content based on the transcript."

/-- The system message assembled by `generate_script`. -/
def script_system_message (template : String) : String :=
  "You are an expert content writer and scriptwriter. Your task is to transform video transcript content into polished, engaging written content.\n\n"
    ++ template_prompts template
    ++ "\n\nGuidelines:\n- Maintain the key information and insights from the original content\n- Adapt the tone and style to match the target format\n- Make the content engaging and valuable for the target audience\n- Be creative while staying true to the source material\n- Format the output cleanly and professionally"

/-- The user message assembled by `generate_script`, with the transcript
truncated to its first 6000 characters (`transcript[:6000]`). -/
def script_user_message (transcript prompt : String) : String :=
  "Here is the video transcript:\n\n---\n" ++ transcript.take 6000
    ++ "\n---\n\nUser\x27s request: " ++ prompt
    ++ "\n\nPlease create the content based on the transcript and the user\x27s request."

/-- Collaborator oracle for `/generate-script`: what the LLM returns for
the given system and user messages, or the exception text it raises. -/
structure ScriptEnv where
  llm : String → String → Except String String

/-- `generate_script` from src/backend/main.py: assemble the messages,
call the LLM, strip the result; an exception is re-raised (`raise e`). -/
def generate_script (env : ScriptEnv)
    (transcript prompt template : String) : Except String String :=
  let sys := script_system_message template
  let user := script_user_message transcript prompt
  match env.llm sys user with
  | .ok content => .ok (pyStrip content)
  | .error msg => .error msg

/-- `/generate-script` (`generate_script_endpoint`): validation of
transcript and prompt, then the LLM call; the second component traces the
(system, user) messages of the LLM invocation, `none` when the generator
was never invoked. -/
def generate_script_endpoint (env : ScriptEnv) (req : ScriptRequest) :
    Except HTTPError ScriptResponse × Option (String × String) :=
  if req.transcript = "" then
    (.error ⟨400, "Transcript is required"⟩, none)
  else if req.prompt = "" then
    (.error ⟨400, "Prompt is required"⟩, none)
  else
    let call := (script_system_message req.template,
      script_user_message req.transcript req.prompt)
    match generate_script env req.transcript req.prompt req.template with
    | .ok script => (.ok { success := true, script := some script }, some call)
    | .error msg =>
      (.error ⟨500, "Script generation failed: " ++ msg⟩, some call)

/-! ### Concrete evaluation helpers for the clock components -/

theorem clockH_eval (q : ℚ) (hq : 0 ≤ q) (n : ℕ) (h : ⌊q / 3600⌋ = (n : ℤ)) :
    clockH q = n := by
  have hr := clockH_repr q hq
  rw [h] at hr
  exact_mod_cast hr

theorem clockM_eval (q : ℚ) (hq : 0 ≤ q) (n : ℕ)
    (h : ⌊q / 60⌋ - 60 * ⌊q / 3600⌋ = (n : ℤ)) : clockM q = n := by
  have hr := clockM_repr q hq
  rw [h] at hr
  exact_mod_cast hr

theorem clockS_eval (q : ℚ) (hq : 0 ≤ q) (n : ℕ)
    (h : ⌊q⌋ - 60 * ⌊q / 60⌋ = (n : ℤ)) : clockS q = n := by
  have hr := clockS_repr q hq
  rw [h] at hr
  exact_mod_cast hr

theorem clockMs_eval (q : ℚ) (hq : 0 ≤ q) (n : ℕ)
    (h : ⌊1000 * q⌋ - 1000 * ⌊q⌋ = (n : ℤ)) : clockMs q = n := by
  have hr := clockMs_repr q hq
  rw [h] at hr
  exact_mod_cast hr

theorem format_timestamp_eval (q : ℚ) (a b c d : ℕ)
    (h1 : clockH q = a) (h2 : clockM q = b) (h3 : clockS q = c) (h4 : clockMs q = d) :
    format_timestamp q
      = ⟨padDigits 2 a ++ ':' :: (padDigits 2 b ++ ':' :: (padDigits 2 c ++ ',' :: padDigits 3 d))⟩ := by
  rw [format_timestamp, clockChars, h1, h2, h3, h4]

theorem format_vtt_timestamp_eval (q : ℚ) (a b c d : ℕ)
    (h1 : clockH q = a) (h2 : clockM q = b) (h3 : clockS q = c) (h4 : clockMs q = d) :
    format_vtt_timestamp q
      = ⟨padDigits 2 a ++ ':' :: (padDigits 2 b ++ ':' :: (padDigits 2 c ++ '.' :: padDigits 3 d))⟩ := by
  rw [format_vtt_timestamp, clockChars, h1, h2, h3, h4]

/-! ### Claim theorems -/

/-- C1: for every non-negative seconds value (exact-value model of the
float input), `format_timestamp` matches `^\d\d+:\d\d:\d\d,\d\d\d$` and
`format_vtt_timestamp` matches `^\d\d+:\d\d:\d\d\.\d\d\d$` (hours padded
to at least two digits with no upper bound, minutes and seconds exactly
two digits, milliseconds exactly three digits, truncated not rounded),
and parsing the string back as `hours*3600 + minutes*60 + seconds +
millis/1000` recovers the input truncated to whole milliseconds. -/
theorem c1_timestamp_format_and_parse (q : ℚ) (hq : 0 ≤ q) :
    matchClock ',' (format_timestamp q) = true ∧
    matchClock '.' (format_vtt_timestamp q) = true ∧
    parseClock ',' (format_timestamp q) = some (msTrunc q) ∧
    parseClock '.' (format_vtt_timestamp q) = some (msTrunc q) :=
  ⟨matchClock_format ',' (by decide) q hq, matchClock_format '.' (by decide) q hq,
    parseClock_format ',' (by decide) q hq, parseClock_format '.' (by decide) q hq⟩

/-- Witness for C1 at the concrete input 2.5 seconds. -/
theorem c1_timestamp_witness :
    matchClock ',' (format_timestamp (5 / 2)) = true ∧
    matchClock '.' (format_vtt_timestamp (5 / 2)) = true ∧
    parseClock ',' (format_timestamp (5 / 2)) = some (msTrunc (5 / 2)) ∧
    parseClock '.' (format_vtt_timestamp (5 / 2)) = some (msTrunc (5 / 2)) :=
  c1_timestamp_format_and_parse (5 / 2) (by norm_num)

theorem transcribeBody_trace (env : TranscribeEnv) (req : TranscribeRequest) :
    (transcribeBody env req).2.dirCreated = true ∧
    (transcribeBody env req).2.dirExists = true ∧
    (transcribeBody env req).2.removeCount = 0 := by
  unfold transcribeBody
  repeat' split
  all_goals simp [initialTrace, apply_ite]

/-- C2: for every transcribe request and every combination of collaborator
outcomes (success, download failure, missing audio artifact, transcription
failure, summarizer failure), the temporary working directory is created,
no longer exists after the response is produced, and is removed exactly
once. -/
theorem c2_tempdir_cleanup (env : TranscribeEnv) (req : TranscribeRequest) :
    (transcribe_video env req).2.dirCreated = true ∧
    (transcribe_video env req).2.dirExists = false ∧
    (transcribe_video env req).2.removeCount = 1 := by
  have h := transcribeBody_trace env req
  unfold transcribe_video
  simp [finallyCleanup, h.1, h.2.1, h.2.2]

deriving instance DecidableEq for Except

/-- A collaborator environment in which every step succeeds. -/
def envAllOk : TranscribeEnv :=
  { metadata := fun _ => none
    download := fun _ => .ok
    files := ["audio.mp3"]
    transcription := fun _ =>
      .ok { text := "hi", language := some "en", duration := 0, segments := [] }
    summarizer := fun _ _ => some "sum" }

/-- C3 counterexample: a transcribe request whose `url` is the empty string
is not rejected with a 400 before the downloader runs; the downloader is
invoked and, when the collaborators succeed, the request succeeds. -/
theorem c3_counterexample :
    (transcribe_video envAllOk { url := "" }).2.downloadInvoked = true ∧
    (transcribe_video envAllOk { url := "" }).1
      = .ok { success := true, transcript := some "hi", segments := some [],
              summary := some "sum", language := some "en" } := by
  decide

/-- C3 amended: the transcribe endpoint performs no emptiness validation of
`url`; for every request (the empty url included) the downloader is
invoked, and an unfetchable URL surfaces as the downloader error mapped to
HTTP 400 with detail `Failed to download video: ...`, not as a
pre-download `InvalidRequest`. -/
theorem c3_amended (env : TranscribeEnv) (req : TranscribeRequest) :
    (transcribe_video env req).2.downloadInvoked = true ∧
    (∀ m, env.download req.url = .downloadError m →
      (transcribe_video env req).1
        = .error ⟨400, "Failed to download video: " ++ m⟩) := by
  constructor
  · unfold transcribe_video transcribeBody
    repeat' split
    all_goals simp [finallyCleanup, initialTrace, apply_ite]
  · intro m hm
    unfold transcribe_video transcribeBody
    rw [hm]

/-- A collaborator environment whose downloader rejects every URL. -/
def envDownFail : TranscribeEnv :=
  { envAllOk with download := fun _ => .downloadError "boom" }

/-- Witness for C3 amended at a concrete failing environment. -/
theorem c3_amended_witness :
    (transcribe_video envDownFail { url := "" }).2.downloadInvoked = true ∧
    (transcribe_video envDownFail { url := "" }).1
      = .error ⟨400, "Failed to download video: boom"⟩ :=
  ⟨(c3_amended envDownFail { url := "" }).1,
    (c3_amended envDownFail { url := "" }).2 "boom" rfl⟩

/-- An environment whose download directory holds two accepted audio files. -/
def envTwoFiles : TranscribeEnv :=
  { envAllOk with
    files := ["a.mp3", "b.mp3"]
    transcription := fun _ =>
      .ok { text := "hello", language := some "en", duration := 0, segments := [] } }

/-- C4 counterexample: with two files carrying accepted audio extensions in
the working directory (an ambiguous match), the request does not fail with
`AudioArtifactMissing`; it continues with the first match and succeeds. -/
theorem c4_counterexample :
    (envTwoFiles.files.filter hasAudioExt).length = 2 ∧
    (transcribe_video envTwoFiles { url := "u" }).1
      = .ok { success := true, transcript := some "hello", segments := some [],
              summary := some "sum", language := some "en" } ∧
    (transcribe_video envTwoFiles { url := "u" }).2.audioFile = some "a.mp3" := by
  decide

/-- C4 amended: after a successful download, the request fails with HTTP
500 `Audio file not found after download` exactly when no file in the
working directory has an accepted audio extension, and the transcriber is
not invoked; when at least one file matches, the flow continues with the
first matching file in listing order, even if several match. -/
theorem c4_amended (env : TranscribeEnv) (req : TranscribeRequest)
    (hdl : env.download req.url = .ok) :
    (env.files.find? hasAudioExt = none →
      (transcribe_video env req).1
          = .error ⟨500, "Audio file not found after download"⟩ ∧
      (transcribe_video env req).2.transcriberInvoked = false) ∧
    (∀ f, env.files.find? hasAudioExt = some f →
      (transcribe_video env req).2.audioFile = some f ∧
      (transcribe_video env req).2.transcriberInvoked = true) := by
  constructor
  · intro hnone
    unfold transcribe_video transcribeBody
    rw [hdl, hnone]
    simp [finallyCleanup, initialTrace]
  · intro f hf
    unfold transcribe_video transcribeBody
    rw [hdl, hf]
    repeat' split
    all_goals simp_all [finallyCleanup, initialTrace, apply_ite]

/-- Witness for C4 amended: two matching files, the first one is used. -/
theorem c4_amended_witness :
    (transcribe_video envTwoFiles { url := "u" }).2.audioFile = some "a.mp3" ∧
    (transcribe_video envTwoFiles { url := "u" }).2.transcriberInvoked = true :=
  (c4_amended envTwoFiles { url := "u" } rfl).2 "a.mp3" (by decide)

/-- C5 counterexample: for the empty segment sequence the backend encoders
return a plain empty document and a header-only document respectively;
there is no error or guard outcome in these functions. -/
theorem c5_counterexample :
    segments_to_srt [] = "" ∧ segments_to_vtt [] = "WEBVTT\n" := by
  decide

/-- C5 amended: the backend `segments_to_srt` / `segments_to_vtt` return an
empty (resp. header-only) document for the empty sequence with no error
outcome; the caller-visible no-data guard exists only in the browser
export code, which refuses to produce a file when no segments exist. -/
theorem c5_amended :
    segments_to_srt [] = "" ∧ segments_to_vtt [] = "WEBVTT\n" ∧
    downloadSRT [] = none ∧ downloadVTT [] = none := by
  decide

/-- C6: encoding the two segments (0.0, 2.5, "Hello") and (2.5, 5.0,
"world") to SRT yields exactly the expected document: index line, timing
line, text line and blank line for each segment. -/
theorem c6_example_document :
    segments_to_srt [⟨0, 5 / 2, "Hello"⟩, ⟨5 / 2, 5, "world"⟩]
      = "1\n00:00:00,000 --> 00:00:02,500\nHello\n\n2\n00:00:02,500 --> 00:00:05,000\nworld\n" := by
  have e0 : format_timestamp 0 = "00:00:00,000" := by
    rw [format_timestamp_eval 0 0 0 0 0
      (clockH_eval _ le_rfl _ (by norm_num))
      (clockM_eval _ le_rfl _ (by norm_num))
      (clockS_eval _ le_rfl _ (by norm_num))
      (clockMs_eval _ le_rfl _ (by norm_num))]
    decide
  have e25 : format_timestamp (5 / 2) = "00:00:02,500" := by
    rw [format_timestamp_eval (5 / 2) 0 0 2 500
      (clockH_eval _ (by norm_num) _ (by norm_num))
      (clockM_eval _ (by norm_num) _ (by norm_num))
      (clockS_eval _ (by norm_num) _ (by norm_num))
      (clockMs_eval _ (by norm_num) _ (by norm_num))]
    decide
  have e5 : format_timestamp 5 = "00:00:05,000" := by
    rw [format_timestamp_eval 5 0 0 5 0
      (clockH_eval _ (by norm_num) _ (by norm_num))
      (clockM_eval _ (by norm_num) _ (by norm_num))
      (clockS_eval _ (by norm_num) _ (by norm_num))
      (clockMs_eval _ (by norm_num) _ (by norm_num))]
    decide
  show joinNl (srtLines 1 _) = _
  simp only [srtLines, e0, e25, e5]
  decide

/-- C7: encoding any list of segments with non-negative times and
newline-free text to SRT, then parsing the index lines, timing lines and
text lines back, recovers the original segments in order with each text
stripped and each time truncated to whole milliseconds. -/
theorem c7_srt_roundtrip (segs : List Segment)
    (h : ∀ s ∈ segs, 0 ≤ s.start ∧ 0 ≤ s.«end» ∧ '\n' ∉ s.text.data) :
    parseSRT (segments_to_srt segs)
      = some (segs.map (fun s => ⟨msTrunc s.start, msTrunc s.«end», pyStrip s.text⟩)) := by
  match segs with
  | [] => rfl
  | s :: rest =>
    rw [parseSRT, segments_to_srt,
      splitNl_joinNl _ (srtLines_ne_nil s rest 1)
        (srtLines_no_nl (s :: rest) 1 (fun x hx => (h x hx).2.2))]
    exact parseSRTLines_srtLines (s :: rest) 1 (fun x hx => ⟨(h x hx).1, (h x hx).2.1⟩)

/-- Witness for C7 at a concrete one-segment list. -/
theorem c7_srt_roundtrip_witness :
    parseSRT (segments_to_srt [⟨0, 5 / 2, " Hi there "⟩])
      = some (([⟨0, 5 / 2, " Hi there "⟩] : List Segment).map
          (fun s => ⟨msTrunc s.start, msTrunc s.«end», pyStrip s.text⟩)) := by
  apply c7_srt_roundtrip
  intro s hs
  simp only [List.mem_singleton] at hs
  subst hs
  refine ⟨by norm_num, by norm_num, by decide⟩

/-- C8: on the successful download / transcription path, the summarizer is
invoked exactly when the stripped transcript is non-empty, and a summarizer
failure (the LLM call raising on any input) is non-fatal: the response is
still a success whose `summary` is the empty string, with the transcript,
segments and remaining fields unaffected. -/
theorem c8_summary_nonfatal (env : TranscribeEnv) (req : TranscribeRequest)
    (f : String) (d : TranscriptionData)
    (hdl : env.download req.url = .ok)
    (hf : env.files.find? hasAudioExt = some f)
    (ht : env.transcription f = .ok d) :
    ((transcribe_video env req).2.summarizerInvoked = true ↔ pyStrip d.text ≠ "") ∧
    ((∀ a b, env.summarizer a b = none) →
      (transcribe_video env req).1 = .ok {
        success := true
        transcript := some (pyStrip d.text)
        segments := some d.segments
        summary := some ""
        error := none
        duration := if d.duration = 0 then none else some (pyRound2 d.duration)
        language := some (d.language.getD "unknown")
        title := (env.metadata req.url).map (fun m => m.title)
        thumbnail := (env.metadata req.url).map (fun m => m.thumbnail) }) := by
  unfold transcribe_video transcribeBody
  simp only [hdl, hf, ht]
  constructor
  · by_cases he : pyStrip d.text = "" <;>
      simp [he, finallyCleanup, initialTrace, apply_ite]
  · intro hfail
    have hsum : ∀ s, generate_summary env.summarizer (pyStrip d.text) s = "" := by
      intro s
      simp [generate_summary, hfail]
    by_cases he : pyStrip d.text = ""
    · simp [he]
    · simp [he, hsum]

/-- An environment whose summarizer LLM call always raises. -/
def envSummFail : TranscribeEnv :=
  { envAllOk with summarizer := fun _ _ => none }

/-- Witness for C8: concrete request with a failing summarizer still
succeeds with an empty summary, and the summarizer was invoked because the
transcript is non-empty. -/
theorem c8_summary_witness :
    ((transcribe_video envSummFail { url := "u" }).2.summarizerInvoked = true
        ↔ pyStrip ("hi" : String) ≠ "") ∧
    (transcribe_video envSummFail { url := "u" }).1
      = .ok { success := true, transcript := some (pyStrip "hi"), segments := some [],
              summary := some "", language := some "en" } := by
  have h := c8_summary_nonfatal envSummFail { url := "u" } "audio.mp3"
    { text := "hi", language := some "en", duration := 0, segments := [] }
    rfl (by decide) rfl
  refine ⟨h.1, ?_⟩
  have h2 := h.2 (fun a b => rfl)
  simpa using h2

/-- A script-generation environment whose LLM succeeds. -/
def envScriptOk : ScriptEnv := { llm := fun _ _ => .ok "out" }

/-- C9: the generate-script endpoint rejects an empty transcript or an
empty prompt with HTTP 400 before the generator is ever invoked (trace is
`none`); with both non-empty the generator is invoked with the system
message of the selected template and the user message built from the
transcript truncated to its first 6000 characters; an unknown template
falls back to the custom instruction template. -/
theorem c9_generate_script (env : ScriptEnv) (req : ScriptRequest) :
    (req.transcript = "" →
      generate_script_endpoint env req
        = (.error ⟨400, "Transcript is required"⟩, none)) ∧
    (req.transcript ≠ "" → req.prompt = "" →
      generate_script_endpoint env req
        = (.error ⟨400, "Prompt is required"⟩, none)) ∧
    (req.transcript ≠ "" → req.prompt ≠ "" →
      (generate_script_endpoint env req).2
        = some (script_system_message req.template,
            script_user_message req.transcript req.prompt)) ∧
    (req.template ≠ "twitter" → req.template ≠ "blog" → req.template ≠ "youtube" →
      req.template ≠ "linkedin" → req.template ≠ "newsletter" →
      script_system_message req.template = script_system_message "custom") := by
  refine ⟨?_, ?_, ?_, ?_⟩
  · intro h
    simp [generate_script_endpoint, h]
  · intro h1 h2
    simp [generate_script_endpoint, h1, h2]
  · intro h1 h2
    cases hg : generate_script env req.transcript req.prompt req.template <;>
      simp [generate_script_endpoint, h1, h2, hg]
  · intro h1 h2 h3 h4 h5
    simp [script_system_message, template_prompts, h1, h2, h3, h4, h5]

/-- Witness for C9: a request with non-empty transcript and prompt and an
unrecognized template invokes the generator with the custom-template
system message and the truncated-transcript user message. -/
theorem c9_generate_script_witness :
    (generate_script_endpoint envScriptOk
        { transcript := "T", prompt := "P", template := "weird" }).2
      = some (script_system_message "weird", script_user_message "T" "P") :=
  (c9_generate_script envScriptOk
    { transcript := "T", prompt := "P", template := "weird" }).2.2.1
    (by decide) (by decide)

/-- C10 counterexample: for the empty segment sequence the VTT output is
the header followed by one newline, not the header, a blank line and the
(empty) transformed SRT output. -/
theorem c10_counterexample :
    segments_to_vtt [] ≠ "WEBVTT" ++ "\n" ++ "\n"
      ++ joinNl (withDotTimings (srtLines 1 [])) := by
  decide

/-- C10 amended: for every non-empty segment sequence, the VTT output is
`WEBVTT`, a blank line, then the SRT line list after replacing the commas of each timing line
by dots (index, text and blank lines byte-identical),
joined exactly as the SRT encoder joins its own lines; for the empty
sequence the VTT output is `"WEBVTT\n"`. -/
theorem c10_vtt_from_srt (segs : List Segment) (h : segs ≠ []) :
    segments_to_vtt segs
      = "WEBVTT" ++ "\n" ++ "\n" ++ joinNl (withDotTimings (srtLines 1 segs)) ∧
    segments_to_srt segs = joinNl (srtLines 1 segs) := by
  refine ⟨?_, rfl⟩
  rw [withDotTimings_srtLines segs 1]
  match segs, h with
  | s :: rest, _ =>
    show joinNl ("WEBVTT" :: "" :: vttLines 1 (s :: rest)) = _
    rw [vttLines]
    apply String.ext
    rw [joinNl_data_cons, joinNl_data_cons, String.data_append,
      String.data_append, String.data_append]
    rfl

/-- Witness for C10 amended at a concrete one-segment list. -/
theorem c10_vtt_from_srt_witness :
    segments_to_vtt [⟨0, 1, "x"⟩]
      = "WEBVTT" ++ "\n" ++ "\n"
        ++ joinNl (withDotTimings (srtLines 1 [⟨0, 1, "x"⟩])) ∧
    segments_to_srt [⟨0, 1, "x"⟩] = joinNl (srtLines 1 [⟨0, 1, "x"⟩]) :=
  c10_vtt_from_srt [⟨0, 1, "x"⟩] (by simp)
